import Mathlib

/-!
Verification of the bracket topology and labeling engine of `brackets-viewer.js`
(`src/main.ts`), shallowly embedded in Lean. DOM side effects are modelled by the
structural decisions the code makes (which rounds are displayed, which connectors
are asserted, which hover entries exist); fallible paths return `Except`/`Option`.
-/

namespace BracketsViewer

/-- Result declared on an opponent slot: `'win' | 'loss' | 'draw'` in `brackets-model`. -/
inductive MatchResult
  | win
  | loss
  | draw
deriving DecidableEq

/-- An opponent slot's record (`ParticipantResult` in `brackets-model`): `id` references a
participant and is nullable (unknown yet); `position` is the 1-based upstream slot origin. -/
structure ParticipantResult where
  id : Option Nat
  result : Option MatchResult
  score : Option Int
  position : Option Nat
deriving DecidableEq

/-- A tournament participant: stable identifier and display name. -/
structure Participant where
  id : Nat
  name : String
deriving DecidableEq

/-- A match, restricted to the fields `main.ts` reads. An opponent slot is
`Option ParticipantResult`; `none` is a permanent bye (`null` in the data). -/
structure Match where
  id : Nat
  stage_id : Nat
  group_id : Nat
  round_id : Nat
  number : Nat
  opponent1 : Option ParticipantResult
  opponent2 : Option ParticipantResult
  child_count : Nat
deriving DecidableEq

/-- Values of the `participantOriginPlacement` option: `'before' | 'after' | 'none'`. -/
inductive Placement
  | before
  | after
  | none
deriving DecidableEq

/-- The resolved viewer configuration (`Config` in `types.ts`). -/
structure Config where
  participantOriginPlacement : Placement
  separatedChildCountLabel : Bool
  showSlotsOrigin : Bool
  showLowerBracketSlotsOrigin : Bool
  highlightParticipantOnHover : Bool
deriving DecidableEq

/-- A caller-supplied `Partial<Config>`: every option may be omitted. -/
structure PartialConfig where
  participantOriginPlacement : Option Placement
  separatedChildCountLabel : Option Bool
  showSlotsOrigin : Option Bool
  showLowerBracketSlotsOrigin : Option Bool
  highlightParticipantOnHover : Option Bool
deriving DecidableEq

/-- Config resolution at the top of `render` (`main.ts` lines 41-47). The caller's config
object is itself optional (`config?: Partial<Config>`). `participantOriginPlacement` uses
`config?.participantOriginPlacement || 'before'`; since every `Placement` value is a truthy
string, `||` falls through exactly on an omitted value. The four other options use
`!== undefined ? given : default`. -/
def resolveConfig (config : Option PartialConfig) : Config :=
  { participantOriginPlacement :=
      (config.bind PartialConfig.participantOriginPlacement).getD Placement.before
  , separatedChildCountLabel :=
      (config.bind PartialConfig.separatedChildCountLabel).getD false
  , showSlotsOrigin :=
      (config.bind PartialConfig.showSlotsOrigin).getD true
  , showLowerBracketSlotsOrigin :=
      (config.bind PartialConfig.showLowerBracketSlotsOrigin).getD true
  , highlightParticipantOnHover :=
      (config.bind PartialConfig.highlightParticipantOnHover).getD true }

/-- The fully-defaulted configuration, as resolved when `render` is called with no config. -/
def defaultConfig : Config :=
  { participantOriginPlacement := Placement.before
  , separatedChildCountLabel := false
  , showSlotsOrigin := true
  , showLowerBracketSlotsOrigin := true
  , highlightParticipantOnHover := true }

/-! ## Final group rendering (`renderFinal`, `main.ts` lines 229-245) -/

/-- Display count for a final group, from the group's first match. Embeds
`const winnerWb = matches[0].opponent1;` and
`const displayCount = winnerWb?.id === null || winnerWb?.result === 'win' ? 1 : 2;`.
`winnerWb?.id === null` holds exactly when `opponent1` is present and its `id` is null
(when `opponent1` is itself null, `winnerWb?.id` is `undefined`, which is not `=== null`). -/
def finalDisplayCount (firstMatch : Match) : Nat :=
  if firstMatch.opponent1.map ParticipantResult.id = some Option.none
      ∨ firstMatch.opponent1.bind ParticipantResult.result = some MatchResult.win
  then 1 else 2

/-- The rounds rendered by `renderFinal`: one round per match of
`matches.slice(0, displayCount)` (the loop runs over `finalMatches` and round `i` uses
`finalMatches[i]`). On an empty match list `matches[0].opponent1` faults, modelled as
`Option.none`. (`matches` is a reserved token in Lean, hence `matchList`.) -/
def renderFinal (matchList : List Match) : Option (List Match) :=
  match matchList with
  | [] => Option.none
  | m :: _ => some (matchList.take (finalDisplayCount m))

/-- A final-group match whose `opponent1` has a resolved id and no declared result yet. -/
def finalMatchUnresolved : Match :=
  { id := 10, stage_id := 0, group_id := 2, round_id := 5, number := 1
  , opponent1 := some { id := some 1, result := Option.none, score := Option.none, position := Option.none }
  , opponent2 := some { id := some 2, result := Option.none, score := Option.none, position := Option.none }
  , child_count := 0 }

/-! ## The hover-highlight index (`participantRefs`, `main.ts` lines 22, 51, 468-486)

`participantRefs` is a plain object keyed by participant id holding arrays of DOM
elements; it is modelled as an association list from id to a list of element tags
(elements themselves are opaque, tagged by `Nat`). -/

/-- The participant-id-keyed hover index: id to list of DOM-element tags. -/
abbrev RefsMap := List (Nat × List Nat)

/-- Property lookup `this.participantRefs[id]`: `Option.none` models `undefined`. -/
def lookupRef (refs : RefsMap) (id : Nat) : Option (List Nat) :=
  match refs with
  | [] => Option.none
  | (k, v) :: rest => if k = id then some v else lookupRef rest id

/-- Property assignment `this.participantRefs[id] = v`: replaces the entry if the key
exists, inserts it otherwise. -/
def setRef (refs : RefsMap) (id : Nat) (v : List Nat) : RefsMap :=
  match refs with
  | [] => [(id, v)]
  | (k, w) :: rest => if k = id then (id, v) :: rest else (k, w) :: setRef rest id v

/-- The reset loop at the top of `render` (`main.ts` line 51):
`data.participants.forEach(participant => this.participantRefs[participant.id] = [])`.
Note it runs on the index `prior` left over from any earlier `render` call; the field
itself (`readonly ... = {}`) is initialized once at construction and never reassigned. -/
def resetRefs (participants : List Participant) (prior : RefsMap) : RefsMap :=
  participants.foldl (fun acc p => setRef acc p.id []) prior

/-- `setupMouseHover` (`main.ts` lines 468-486): returns without effect when hover
highlighting is disabled; otherwise reads `this.participantRefs[participantId]`, throws
when that is `undefined`, and else pushes the element onto the entry. -/
def setupMouseHover (config : Config) (refs : RefsMap) (participantId : Nat)
    (element : Nat) : Except String RefsMap :=
  if !config.highlightParticipantOnHover then Except.ok refs
  else
    match lookupRef refs participantId with
    | Option.none =>
        Except.error ("The participant (id: " ++ toString participantId
          ++ ") does not exist in the participants table.")
    | some es => Except.ok (setRef refs participantId (es ++ [element]))

/-! ## Participant rendering (`createParticipant` / `renderParticipant`,
`main.ts` lines 370-414) -/

/-- What the name container ends up holding for one opponent slot. -/
inductive NameDisplay
  | bye
  | resolvedName (name : String)
  | hint
deriving DecidableEq

/-- The name-resolution branch of `renderParticipant` (`main.ts` lines 399-408):
`this.participants.find(item => item.id === participant.id)` resolves the name; on a
failed lookup the code falls into the `renderHint` fallback. `item.id === participant.id`
compares a number with a nullable number, so it never matches a null id. -/
def renderParticipantDisplay (participants : List Participant)
    (participant : ParticipantResult) : NameDisplay :=
  match participants.find? (fun item => (some item.id : Option Nat) == participant.id) with
  | some found => NameDisplay.resolvedName found.name
  | Option.none => NameDisplay.hint

/-- `createParticipant` (`main.ts` lines 370-388): a null slot displays BYE; otherwise the
slot is rendered by `renderParticipant`, and then, when `participant.id !== null`,
`setupMouseHover(participant.id, ...)` runs — which may throw. Returns the display
decision together with the updated hover index. -/
def createParticipant (participants : List Participant) (config : Config) (refs : RefsMap)
    (opponent : Option ParticipantResult) (element : Nat) :
    Except String (NameDisplay × RefsMap) :=
  match opponent with
  | Option.none => Except.ok (NameDisplay.bye, refs)
  | some participant =>
    let display := renderParticipantDisplay participants participant
    match participant.id with
    | Option.none => Except.ok (display, refs)
    | some pid =>
        (setupMouseHover config refs pid element).map (fun refs2 => (display, refs2))

/-! ## Stage dispatch (`renderStage`, `main.ts` lines 88-105) -/

/-- Which handler the `switch` in `renderStage` dispatched to. -/
inductive StageRender
  | roundRobin
  | elimination
deriving DecidableEq

/-- The `switch (stage.type)` of `renderStage` (`main.ts` lines 94-104): `round_robin`,
`single_elimination` and `double_elimination` dispatch to their handlers; any other kind
throws `Unknown bracket type: ...`. -/
def renderStage (stageType : String) : Except String StageRender :=
  if stageType = "round_robin" then Except.ok StageRender.roundRobin
  else if stageType = "single_elimination" then Except.ok StageRender.elimination
  else if stageType = "double_elimination" then Except.ok StageRender.elimination
  else Except.error ("Unknown bracket type: " ++ stageType)

/-- The per-stage loop of `render` (`main.ts` lines 53-57): stages are processed in order
and a throw from `renderStage` propagates out of `render` uncaught — there is no
try/catch or retry anywhere in the class. -/
def renderStages (stageTypes : List String) : Except String (List StageRender) :=
  match stageTypes with
  | [] => Except.ok []
  | t :: rest =>
    match renderStage t with
    | Except.error e => Except.error e
    | Except.ok r =>
      match renderStages rest with
      | Except.error e => Except.error e
      | Except.ok rs => Except.ok (r :: rs)

/-! ## Brackets, origin hints and connections -/

/-- The `BracketType` location strings:
`'single-bracket' | 'winner-bracket' | 'loser-bracket' | 'final-group'`. -/
inductive BracketType
  | singleBracket
  | winnerBracket
  | loserBracket
  | finalGroup
deriving DecidableEq

/-- Where an origin hint says a slot's occupant comes from. -/
inductive HintSource
  | seed (position : Nat)
  | winnerBracketDrop (position : Nat)
  | previousLoserRound (position : Nat)
deriving DecidableEq

/-- Modelled from the spec: `lang.getOriginHint` lives in `src/lang.ts`, which is not
included in the sources (only its caller `createBracketMatch` is). Spec section 4.4: for
a loser-bracket round, the round's parity determines whether incoming slot 1 or slot 2 is
the fresh drop from the winner bracket. This function fixes the parity-to-slot map: even
rounds place the fresh drop in slot 1, odd rounds in slot 2. -/
def freshDropSlot (roundNumber : Nat) : Nat :=
  if roundNumber % 2 = 0 then 1 else 2

/-- Modelled from the spec: the loser-bracket branch of `lang.getOriginHint` (spec
section 4.4) — the slot matching the round's fresh-drop parity is hinted as a dropped
winner-bracket loser, the other slot as fed by the previous loser-bracket round. -/
def loserRoundHint (roundNumber : Nat) (position : Nat) : HintSource :=
  if position = freshDropSlot roundNumber then HintSource.winnerBracketDrop position
  else HintSource.previousLoserRound position

/-- Modelled from the spec: `lang.getOriginHint` (spec section 4.4). Hints appear only
for rounds after the first structurally-present round (or already at round 1 when
`skipFirstRound` makes it a derived round); loser-bracket hints follow the parity rule of
`loserRoundHint`, other brackets hint the seeding. -/
def getOriginHint (roundNumber : Nat) (roundCount : Nat) (skipFirstRound : Bool)
    (matchLocation : BracketType) : Option (Nat → HintSource) :=
  match matchLocation with
  | BracketType.loserBracket =>
      if 2 ≤ roundNumber ∨ skipFirstRound then some (loserRoundHint roundNumber)
      else Option.none
  | _ => if roundNumber = 1 then some HintSource.seed else Option.none

/-- `renderHint` (`main.ts` lines 435-441): nothing is rendered when there is no hint or
no position; `showSlotsOrigin = false` suppresses every hint; with `showSlotsOrigin` on,
`showLowerBracketSlotsOrigin = false` suppresses hints exactly for `'loser-bracket'`
matches. Returns the hint set up on the name container, if any. -/
def renderHint (config : Config) (participant : ParticipantResult)
    (originHint : Option (Nat → HintSource)) (matchLocation : Option BracketType) :
    Option HintSource :=
  match originHint, participant.position with
  | some hint, some pos =>
      if config.showSlotsOrigin = false then Option.none
      else if config.showLowerBracketSlotsOrigin = false
          ∧ matchLocation = some BracketType.loserBracket then Option.none
      else some (hint pos)
  | _, _ => Option.none

/-- `renderParticipantOrigin` (`main.ts` lines 451-460): the origin abbreviation is
rendered only when a position and a match location exist, the placement option is not
`'none'`, `showSlotsOrigin` is on, and — for `'loser-bracket'` matches —
`showLowerBracketSlotsOrigin` is also on. Returns the position whose abbreviation is
rendered, if any (the abbreviation text itself comes from `helpers.ts`). -/
def renderParticipantOrigin (config : Config) (participant : ParticipantResult)
    (matchLocation : Option BracketType) : Option Nat :=
  match participant.position, matchLocation with
  | some pos, some _ =>
      if config.participantOriginPlacement = Placement.none then Option.none
      else if config.showSlotsOrigin = false then Option.none
      else if config.showLowerBracketSlotsOrigin = false
          ∧ matchLocation = some BracketType.loserBracket then Option.none
      else some pos
  | _, _ => Option.none

/-- A match's connector descriptor toward the following round. -/
inductive ForwardConnection
  | noneF
  | nextRound
  | finalGroup
deriving DecidableEq

/-- The connector descriptor returned for one match. -/
structure Connection where
  connectPrevious : Bool
  forward : ForwardConnection
deriving DecidableEq

/-- Modelled from the spec: `dom.getBracketConnection` lives in `src/dom.ts`, which is not
included in the sources (only its caller `createBracketMatch` is). Spec section 4.7:
round 1 of any bracket never connects backward; intermediate rounds connect forward to the
next round; the last round connects forward to a final group exactly when the orchestrator
asserts `connectFinal`. -/
def getBracketConnection (roundNumber : Nat) (roundCount : Nat)
    (matchLocation : BracketType) (connectFinal : Option Bool) : Connection :=
  { connectPrevious := decide (1 < roundNumber)
  , forward :=
      if roundNumber < roundCount then ForwardConnection.nextRound
      else if connectFinal = some true then ForwardConnection.finalGroup
      else ForwardConnection.noneF }

/-- The connection descriptors produced by `renderBracket` (`main.ts` lines 201-220):
`roundNumber` starts at 1 and increments per round, `roundCount` is the number of rounds,
and every match of a round gets `getBracketConnection(roundNumber, roundCount,
matchLocation, connectFinal)` via `createBracketMatch` (lines 301-306). -/
def renderBracketConnections (matchesByRound : List (List Match))
    (matchLocation : BracketType) (connectFinal : Option Bool) : List (List Connection) :=
  matchesByRound.enum.map (fun round =>
    round.2.map (fun _ =>
      getBracketConnection (round.1 + 1) matchesByRound.length matchLocation connectFinal))

/-- The `renderBracket` calls made by `renderSingleElimination` (`main.ts` lines 165-171):
one bracket, `'single-bracket'`, with the `connectFinal` argument omitted (`undefined`).
Each entry is (bracket type, `connectFinal` argument). -/
def singleElimBracketCalls (matchesByGroup : List (List Match)) :
    List (BracketType × Option Bool) :=
  [(BracketType.singleBracket, Option.none)]

/-- The `renderBracket` calls made by `renderDoubleElimination` (`main.ts` lines 179-190):
the winner bracket is passed `connectFinal = hasFinal` (whether group index 2 exists,
`matchesByGroup[2] !== undefined`); the loser bracket, when present (group index 1), is
passed no `connectFinal` (`undefined`). Each entry is (bracket type, `connectFinal`
argument). -/
def doubleElimBracketCalls (matchesByGroup : List (List Match)) :
    List (BracketType × Option Bool) :=
  (BracketType.winnerBracket, some matchesByGroup[2]?.isSome) ::
    (if matchesByGroup[1]?.isSome then
      [(BracketType.loserBracket, (Option.none : Option Bool))]
     else [])

/-! ## Concrete inputs used by counterexamples and witnesses -/

/-- The default configuration with hover highlighting turned off. -/
def hoverOffConfig : Config :=
  { defaultConfig with highlightParticipantOnHover := false }

/-- The default configuration with `showSlotsOrigin` turned off. -/
def noOriginConfig : Config :=
  { defaultConfig with showSlotsOrigin := false }

/-- An opponent slot referencing participant id 5, with an upstream position. -/
def missingOpponent : ParticipantResult :=
  { id := some 5, result := Option.none, score := Option.none, position := some 1 }

/-! ## Helper lemmas about the hover index -/

/-- Setting a key and reading it back yields the stored value. -/
theorem lookupRef_setRef_self (refs : RefsMap) (id : Nat) (v : List Nat) :
    lookupRef (setRef refs id v) id = some v := by
  induction refs with
  | nil => simp [setRef, lookupRef]
  | cons kv rest ih =>
      obtain ⟨k, w⟩ := kv
      by_cases hk : k = id
      · simp [setRef, hk, lookupRef]
      · simp [setRef, hk, lookupRef, ih]

/-- Setting one key leaves every other key's entry unchanged. -/
theorem lookupRef_setRef_ne (refs : RefsMap) (id id2 : Nat) (v : List Nat)
    (h : id2 ≠ id) : lookupRef (setRef refs id v) id2 = lookupRef refs id2 := by
  have h2 : ¬ id = id2 := fun hh => h hh.symm
  induction refs with
  | nil => simp [setRef, lookupRef, h2]
  | cons kv rest ih =>
      obtain ⟨k, w⟩ := kv
      by_cases hk : k = id
      · subst hk
        simp [setRef, lookupRef, h2]
      · simp [setRef, hk, lookupRef, ih]

/-- The reset loop of `render` does not touch entries of ids absent from the new data. -/
theorem lookupRef_resetRefs_not_mem (participants : List Participant) (prior : RefsMap)
    (id : Nat) (h : id ∉ participants.map Participant.id) :
    lookupRef (resetRefs participants prior) id = lookupRef prior id := by
  induction participants generalizing prior with
  | nil => rfl
  | cons p rest ih =>
      simp only [List.map_cons, List.mem_cons, not_or] at h
      have hstep : resetRefs (p :: rest) prior = resetRefs rest (setRef prior p.id []) := rfl
      rw [hstep, ih _ h.2, lookupRef_setRef_ne _ _ _ _ h.1]

/-- The reset loop of `render` empties the entry of every id present in the new data. -/
theorem lookupRef_resetRefs_mem (participants : List Participant) (prior : RefsMap)
    (id : Nat) (h : id ∈ participants.map Participant.id) :
    lookupRef (resetRefs participants prior) id = some [] := by
  induction participants generalizing prior with
  | nil => simp at h
  | cons p rest ih =>
      have hstep : resetRefs (p :: rest) prior = resetRefs rest (setRef prior p.id []) := rfl
      by_cases hm : id ∈ rest.map Participant.id
      · rw [hstep]; exact ih _ hm
      · have hid : id = p.id := by
          simp only [List.map_cons, List.mem_cons] at h
          tauto
        subst hid
        rw [hstep, lookupRef_resetRefs_not_mem rest _ _ hm, lookupRef_setRef_self]

/-- The display count of a final group is at least 1. -/
theorem one_le_finalDisplayCount (m : Match) : 1 ≤ finalDisplayCount m := by
  unfold finalDisplayCount
  split <;> omega

/-! ## Claims -/

/-- C1 counterexample: a final group holding a single match whose `opponent1` has a
resolved id and no declared result falls in the claim's "otherwise" case, yet exactly one
round is displayed, not two — `renderFinal` caps the display count by the number of
matches supplied. -/
theorem C1_counterexample :
    (finalMatchUnresolved.opponent1.map ParticipantResult.id ≠ some Option.none
      ∧ finalMatchUnresolved.opponent1.bind ParticipantResult.result ≠ some MatchResult.win)
    ∧ (renderFinal [finalMatchUnresolved]).map List.length ≠ some 2 := by
  refine ⟨⟨?_, ?_⟩, ?_⟩ <;> decide

/-- C1 (amended): the display count is determined solely from `opponent1` of the group's
first match — 1 when that opponent is present with an unset id or a declared `win`,
2 otherwise — and the number of rounds displayed is the minimum of that count and the
number of matches supplied (so the count-1 case always displays exactly one round). -/
theorem C1_final_round_count (matchList : List Match) (m : Match)
    (h : matchList.head? = some m) :
    (renderFinal matchList).map List.length
      = some (min (finalDisplayCount m) matchList.length)
    ∧ ((m.opponent1.map ParticipantResult.id = some Option.none
        ∨ m.opponent1.bind ParticipantResult.result = some MatchResult.win)
        → finalDisplayCount m = 1
          ∧ (renderFinal matchList).map List.length = some 1)
    ∧ (¬(m.opponent1.map ParticipantResult.id = some Option.none
        ∨ m.opponent1.bind ParticipantResult.result = some MatchResult.win)
        → finalDisplayCount m = 2) := by
  cases matchList with
  | nil => simp at h
  | cons a rest =>
      have ha : a = m := by simpa using h
      subst ha
      refine ⟨by simp [renderFinal, List.length_take], ?_, ?_⟩
      · intro hc
        have h1 : finalDisplayCount a = 1 := by
          unfold finalDisplayCount
          rw [if_pos hc]
        have hmin : min (finalDisplayCount a) (a :: rest).length = 1 := by
          rw [h1]
          exact Nat.min_eq_left (Nat.succ_le_succ (Nat.zero_le _))
        refine ⟨h1, ?_⟩
        have hlen : (renderFinal (a :: rest)).map List.length
            = some (min (finalDisplayCount a) (a :: rest).length) := by
          simp [renderFinal, List.length_take]
        rw [hlen, hmin]
      · intro hc
        unfold finalDisplayCount
        rw [if_neg hc]

/-- C1 witness: the amended theorem evaluated on a one-match final group. -/
theorem C1_final_round_count_witness :
    (renderFinal [finalMatchUnresolved]).map List.length
      = some (min (finalDisplayCount finalMatchUnresolved)
          ([finalMatchUnresolved] : List Match).length) :=
  (C1_final_round_count [finalMatchUnresolved] finalMatchUnresolved rfl).1

/-- C10: the rounds displayed by `renderFinal` are the slice of the supplied match list
up to the display count: never more rounds than matches, a one-match group always renders
exactly one round, and no out-of-bounds access occurs (the result is total whenever the
match list is non-empty). -/
theorem C10_final_slice_safety (matchList : List Match) (rounds : List Match)
    (h : renderFinal matchList = some rounds) :
    rounds.length ≤ matchList.length
    ∧ (∃ m, matchList.head? = some m ∧ rounds = matchList.take (finalDisplayCount m))
    ∧ (matchList.length = 1 → rounds.length = 1) := by
  cases matchList with
  | nil => simp [renderFinal] at h
  | cons a rest =>
      have hr : rounds = (a :: rest).take (finalDisplayCount a) := by
        have := h
        simp [renderFinal] at this
        exact this.symm
      subst hr
      refine ⟨?_, ⟨a, by simp, rfl⟩, ?_⟩
      · rw [List.length_take]
        exact min_le_right _ _
      · intro hlen
        have hrest : rest = [] := by
          simpa using hlen
        subst hrest
        have h1 := one_le_finalDisplayCount a
        rw [List.length_take]
        exact Nat.min_eq_right h1

/-- C10 witness: the theorem evaluated on a one-match final group. -/
theorem C10_final_slice_safety_witness :
    ([finalMatchUnresolved] : List Match).length = 1 :=
  (C10_final_slice_safety [finalMatchUnresolved] [finalMatchUnresolved]
    (by decide)).2.2 (by decide)

/-- C9: when `render` is called with an option omitted, the resolved configuration uses
the defaults `participantOriginPlacement = before`, `separatedChildCountLabel = false`,
`showSlotsOrigin = true`, `showLowerBracketSlotsOrigin = true`,
`highlightParticipantOnHover = true`; a fully omitted config resolves to exactly these. -/
theorem C9_config_defaults (config : Option PartialConfig) :
    (config.bind PartialConfig.participantOriginPlacement = Option.none →
      (resolveConfig config).participantOriginPlacement = Placement.before)
    ∧ (config.bind PartialConfig.separatedChildCountLabel = Option.none →
      (resolveConfig config).separatedChildCountLabel = false)
    ∧ (config.bind PartialConfig.showSlotsOrigin = Option.none →
      (resolveConfig config).showSlotsOrigin = true)
    ∧ (config.bind PartialConfig.showLowerBracketSlotsOrigin = Option.none →
      (resolveConfig config).showLowerBracketSlotsOrigin = true)
    ∧ (config.bind PartialConfig.highlightParticipantOnHover = Option.none →
      (resolveConfig config).highlightParticipantOnHover = true)
    ∧ resolveConfig Option.none = defaultConfig := by
  refine ⟨?_, ?_, ?_, ?_, ?_, rfl⟩ <;> intro h <;> simp [resolveConfig, h]

/-- C9 witness: the theorem evaluated on a fully omitted configuration. -/
theorem C9_config_defaults_witness :
    (resolveConfig Option.none).participantOriginPlacement = Placement.before :=
  (C9_config_defaults Option.none).1 rfl

/-- C7: a stage whose kind is none of `round_robin`, `single_elimination`,
`double_elimination` makes `renderStage` throw `Unknown bracket type: <kind>`, and the
error propagates out of the per-stage loop of `render` uncaught (there is no catch or
retry in the engine). -/
theorem C7_unknown_stage_kind (kind : String) (rest : List String)
    (h1 : kind ≠ "round_robin") (h2 : kind ≠ "single_elimination")
    (h3 : kind ≠ "double_elimination") :
    renderStage kind = Except.error ("Unknown bracket type: " ++ kind)
    ∧ renderStages (kind :: rest) = Except.error ("Unknown bracket type: " ++ kind) := by
  have hr : renderStage kind = Except.error ("Unknown bracket type: " ++ kind) := by
    simp [renderStage, h1, h2, h3]
  refine ⟨hr, ?_⟩
  simp [renderStages, hr]

/-- C7 witness: the theorem evaluated on the unknown stage kind `swiss`. -/
theorem C7_unknown_stage_kind_witness :
    renderStage "swiss" = Except.error ("Unknown bracket type: " ++ "swiss")
    ∧ renderStages ["swiss"] = Except.error ("Unknown bracket type: " ++ "swiss") :=
  C7_unknown_stage_kind "swiss" [] (by decide) (by decide) (by decide)

/-- C3 counterexample: after a render whose data lacks participant 7, the index entry
built for participant 7 by an earlier render — still holding that render's element — is
untouched, so an entry of the index does reflect a participant and element from an
earlier render call. -/
theorem C3_counterexample :
    lookupRef (resetRefs [] [(7, [1])]) 7 = some [1] := by decide

/-- C3 (amended): the reset loop at the start of `render` empties exactly the entries of
the participants present in the current data; an id absent from the current data keeps
whatever entry (if any) earlier render calls left for it. -/
theorem C3_refs_reset_scope (prior : RefsMap) (participants : List Participant)
    (id : Nat) :
    (id ∈ participants.map Participant.id →
      lookupRef (resetRefs participants prior) id = some [])
    ∧ (id ∉ participants.map Participant.id →
      lookupRef (resetRefs participants prior) id = lookupRef prior id) :=
  ⟨fun h => lookupRef_resetRefs_mem participants prior id h,
   fun h => lookupRef_resetRefs_not_mem participants prior id h⟩

/-- C3 witness: the theorem evaluated on a roster containing id 3 over a stale index. -/
theorem C3_refs_reset_scope_witness :
    lookupRef (resetRefs [{ id := 3, name := "A" }] [(7, [1])]) 3 = some [] :=
  (C3_refs_reset_scope [(7, [1])] [{ id := 3, name := "A" }] 3).1 (by decide)

/-- C2 counterexample: under the default configuration, an opponent slot referencing
participant id 5 when the participant list is empty does fall back to the hint display,
but `createParticipant` then throws synchronously from `setupMouseHover` — the lookup
failure is fatal, contradicting the claim. -/
theorem C2_counterexample :
    renderParticipantDisplay [] missingOpponent = NameDisplay.hint
    ∧ createParticipant [] defaultConfig (resetRefs [] []) (some missingOpponent) 0 =
        Except.error "The participant (id: 5) does not exist in the participants table." :=
  ⟨rfl, rfl⟩

/-- C2 (amended): an opponent whose participant id is not in the participant list is
displayed through the origin-hint fallback, and that display fallback itself never
throws; but the subsequent hover setup throws for such an opponent whenever its id is
non-null and hover highlighting is enabled — the render is non-fatal for it exactly when
the id is null or `highlightParticipantOnHover` is off. -/
theorem C2_lookup_fallback (participants : List Participant) (config : Config)
    (p : ParticipantResult) (refs : RefsMap) (element : Nat)
    (h : ∀ q ∈ participants, (some q.id : Option Nat) ≠ p.id) :
    renderParticipantDisplay participants p = NameDisplay.hint
    ∧ (p.id = Option.none →
        createParticipant participants config refs (some p) element =
          Except.ok (NameDisplay.hint, refs))
    ∧ (config.highlightParticipantOnHover = false →
        createParticipant participants config refs (some p) element =
          Except.ok (NameDisplay.hint, refs))
    ∧ (∀ pid, p.id = some pid → config.highlightParticipantOnHover = true →
        lookupRef refs pid = Option.none →
        createParticipant participants config refs (some p) element =
          Except.error ("The participant (id: " ++ toString pid
            ++ ") does not exist in the participants table.")) := by
  have hfind : participants.find?
      (fun item => (some item.id : Option Nat) == p.id) = Option.none := by
    rw [List.find?_eq_none]
    intro x hx
    simpa using h x hx
  have hdisp : renderParticipantDisplay participants p = NameDisplay.hint := by
    simp [renderParticipantDisplay, hfind]
  refine ⟨hdisp, ?_, ?_, ?_⟩
  · intro hpid
    simp [createParticipant, hpid, hdisp]
  · intro hcfg
    cases hp : p.id with
    | none => simp [createParticipant, hp, hdisp]
    | some pid => simp [createParticipant, hp, hdisp, setupMouseHover, hcfg, Except.map]
  · intro pid hpid hcfg hlook
    simp [createParticipant, hpid, hdisp, setupMouseHover, hcfg, hlook, Except.map]

/-- C2 witness: the amended theorem evaluated on an empty participant list and the
missing opponent id 5. -/
theorem C2_lookup_fallback_witness :
    renderParticipantDisplay [] missingOpponent = NameDisplay.hint :=
  (C2_lookup_fallback [] defaultConfig missingOpponent [] 0 (by simp)).1

/-- C6 counterexample: with `highlightParticipantOnHover` disabled, a hover-setup call
for participant id 5 — undeclared, its index entry missing — returns silently instead of
raising the claimed fatal error. -/
theorem C6_counterexample :
    lookupRef [] 5 = Option.none
    ∧ setupMouseHover hoverOffConfig [] 5 0 = Except.ok [] :=
  ⟨rfl, rfl⟩

/-- C6 (amended): when hover highlighting is enabled, a hover-setup call for a
participant id not declared in the roster passed to a fresh render raises a synchronous
error whose message identifies the id; when hover highlighting is disabled the call
returns silently with no error. -/
theorem C6_hover_missing_id_error (config : Config) (participants : List Participant)
    (refs : RefsMap) (pid element : Nat)
    (hroster : ∀ q ∈ participants, q.id ≠ pid) :
    (config.highlightParticipantOnHover = true →
      setupMouseHover config (resetRefs participants []) pid element =
        Except.error ("The participant (id: " ++ toString pid
          ++ ") does not exist in the participants table."))
    ∧ (config.highlightParticipantOnHover = false →
      setupMouseHover config refs pid element = Except.ok refs) := by
  constructor
  · intro hcfg
    have hmem : pid ∉ participants.map Participant.id := by
      intro hmem
      obtain ⟨q, hq, hqid⟩ := List.mem_map.mp hmem
      exact hroster q hq hqid
    have hlook : lookupRef (resetRefs participants []) pid = Option.none := by
      rw [lookupRef_resetRefs_not_mem participants [] pid hmem]
      rfl
    simp [setupMouseHover, hcfg, hlook]
  · intro hcfg
    simp [setupMouseHover, hcfg]

/-- C6 witness: the amended theorem evaluated on an empty roster and id 5, under the
default (hover enabled) configuration. -/
theorem C6_hover_missing_id_error_witness :
    setupMouseHover defaultConfig (resetRefs [] []) 5 0 =
      Except.error ("The participant (id: " ++ toString 5
        ++ ") does not exist in the participants table.") :=
  (C6_hover_missing_id_error defaultConfig [] [] 5 0 (by simp)).1 rfl

/-- C4: within a loser bracket, rounds of the same parity attribute the fresh-drop hint
to the same fixed slot, that slot's hint names a dropped winner-bracket loser, and the
other slot's hint refers to the previous loser-bracket round; from round 2 on the
origin-hint resolver yields exactly this parity rule. -/
theorem C4_loser_parity (n m pos : Nat) (h : n % 2 = m % 2) :
    freshDropSlot n = freshDropSlot m
    ∧ loserRoundHint n (freshDropSlot n) = HintSource.winnerBracketDrop (freshDropSlot n)
    ∧ (pos ≠ freshDropSlot n →
        loserRoundHint n pos = HintSource.previousLoserRound pos)
    ∧ (∀ skipFirstRound roundCount, 2 ≤ n →
        getOriginHint n roundCount skipFirstRound BracketType.loserBracket =
          some (loserRoundHint n)) := by
  refine ⟨by simp [freshDropSlot, h], by simp [loserRoundHint], ?_, ?_⟩
  · intro hne
    simp [loserRoundHint, hne]
  · intro s c h2
    simp [getOriginHint, h2]

/-- C4 witness: the theorem evaluated at loser-bracket rounds 2 and 4 and slot 2. -/
theorem C4_loser_parity_witness :
    freshDropSlot 2 = freshDropSlot 4
    ∧ loserRoundHint 2 2 = HintSource.previousLoserRound 2
    ∧ getOriginHint 2 3 false BracketType.loserBracket = some (loserRoundHint 2) := by
  have h := C4_loser_parity 2 4 2 (by decide)
  exact ⟨h.1, h.2.2.1 (by decide), h.2.2.2 false 3 (by decide)⟩

/-- C5: round 1 of every rendered bracket carries no backward connector; a forward
connector to a final group arises only under an asserted `connectFinal` in the bracket's
last round; `renderSingleElimination` never asserts `connectFinal`, and
`renderDoubleElimination` asserts it for the winner bracket alone, exactly when a final
group (group index 2) is present. -/
theorem C5_connection_topology (matchesByRound matchesByGroup : List (List Match))
    (roundCount n : Nat) (matchLocation : BracketType) (connectFinal : Option Bool) :
    (getBracketConnection 1 roundCount matchLocation connectFinal).connectPrevious = false
    ∧ (∀ firstRound,
        (renderBracketConnections matchesByRound matchLocation connectFinal).head?
          = some firstRound →
        ∀ conn ∈ firstRound, conn.connectPrevious = false)
    ∧ ((getBracketConnection n roundCount matchLocation connectFinal).forward
          = ForwardConnection.finalGroup →
        connectFinal = some true ∧ roundCount ≤ n)
    ∧ (∀ c ∈ singleElimBracketCalls matchesByGroup, c.2 = Option.none)
    ∧ (∀ c ∈ doubleElimBracketCalls matchesByGroup, c.2 = some true →
        c.1 = BracketType.winnerBracket ∧ matchesByGroup[2]?.isSome = true)
    ∧ (matchesByGroup[2]?.isSome = true →
        (BracketType.winnerBracket, some true) ∈ doubleElimBracketCalls matchesByGroup) := by
  refine ⟨rfl, ?_, ?_, ?_, ?_, ?_⟩
  · intro firstRound hfr conn hconn
    cases matchesByRound with
    | nil => simp [renderBracketConnections] at hfr
    | cons r rounds =>
        have hfr2 : firstRound = r.map (fun _ =>
            getBracketConnection 1 (r :: rounds).length matchLocation connectFinal) := by
          simpa [renderBracketConnections, List.enum] using hfr.symm
        subst hfr2
        obtain ⟨x, _, hx⟩ := List.mem_map.mp hconn
        rw [← hx]
        rfl
  · intro hf
    by_cases h1 : n < roundCount
    · simp [getBracketConnection, h1] at hf
    · by_cases h2 : connectFinal = some true
      · exact ⟨h2, Nat.le_of_not_lt h1⟩
      · simp [getBracketConnection, h1, h2] at hf
  · intro c hc
    simp [singleElimBracketCalls] at hc
    simp [hc]
  · intro c hc hflag
    rcases List.mem_cons.mp hc with hw | hl
    · subst hw
      simp only at hflag
      refine ⟨rfl, ?_⟩
      simpa using hflag
    · by_cases hlb : matchesByGroup[1]?.isSome
      · simp only [doubleElimBracketCalls, hlb, if_true, List.mem_singleton] at hl
        rw [hl] at hflag
        simp at hflag
      · simp [doubleElimBracketCalls, hlb] at hl
  · intro hfin
    simp [doubleElimBracketCalls, hfin]

/-- C5 witness: the theorem evaluated on a three-group double elimination input and a
three-round winner bracket with `connectFinal` asserted. -/
theorem C5_connection_topology_witness :
    (getBracketConnection 1 3 BracketType.winnerBracket (some true)).connectPrevious
      = false
    ∧ ((BracketType.winnerBracket, some true) ∈
        doubleElimBracketCalls [[finalMatchUnresolved], [finalMatchUnresolved],
          [finalMatchUnresolved]]) := by
  have h := C5_connection_topology [] [[finalMatchUnresolved], [finalMatchUnresolved],
    [finalMatchUnresolved]] 3 1 BracketType.winnerBracket (some true)
  exact ⟨h.1, h.2.2.2.2.2 (by decide)⟩

/-- C8: with `showSlotsOrigin` off, no slot-origin hint and no origin abbreviation is
rendered anywhere; with `showSlotsOrigin` on and `showLowerBracketSlotsOrigin` off, both
are suppressed exactly for loser-bracket matches, every other location rendering as if
both options were on. -/
theorem C8_origin_toggles (config : Config) (participant : ParticipantResult)
    (originHint : Option (Nat → HintSource)) (matchLocation : Option BracketType) :
    (config.showSlotsOrigin = false →
      renderHint config participant originHint matchLocation = Option.none
      ∧ renderParticipantOrigin config participant matchLocation = Option.none)
    ∧ (config.showSlotsOrigin = true → config.showLowerBracketSlotsOrigin = false →
      (renderHint config participant originHint (some BracketType.loserBracket)
          = Option.none
        ∧ renderParticipantOrigin config participant (some BracketType.loserBracket)
          = Option.none)
      ∧ ∀ loc, loc ≠ BracketType.loserBracket →
          renderHint config participant originHint (some loc)
            = renderHint { config with showLowerBracketSlotsOrigin := true }
                participant originHint (some loc)
          ∧ renderParticipantOrigin config participant (some loc)
            = renderParticipantOrigin { config with showLowerBracketSlotsOrigin := true }
                participant (some loc)) := by
  constructor
  · intro hoff
    constructor
    · cases originHint with
      | none => rfl
      | some hint =>
          cases hp : participant.position with
          | none => simp [renderHint, hp]
          | some pos => simp [renderHint, hp, hoff]
    · cases hp : participant.position with
      | none => simp [renderParticipantOrigin, hp]
      | some pos =>
          cases matchLocation with
          | none => simp [renderParticipantOrigin, hp]
          | some loc => simp [renderParticipantOrigin, hp, hoff]
  · intro hon hlow
    constructor
    · constructor
      · cases originHint with
        | none => rfl
        | some hint =>
            cases hp : participant.position with
            | none => simp [renderHint, hp]
            | some pos => simp [renderHint, hp, hon, hlow]
      · cases hp : participant.position with
        | none => simp [renderParticipantOrigin, hp]
        | some pos => simp [renderParticipantOrigin, hp, hon, hlow]
    · intro loc hloc
      constructor
      · cases originHint with
        | none => rfl
        | some hint =>
            cases hp : participant.position with
            | none => simp [renderHint, hp]
            | some pos => simp [renderHint, hp, hon, hlow, hloc]
      · cases hp : participant.position with
        | none => simp [renderParticipantOrigin, hp]
        | some pos => simp [renderParticipantOrigin, hp, hon, hlow, hloc]

/-- C8 witness: the theorem evaluated with `showSlotsOrigin` off on the missing
opponent's slot. -/
theorem C8_origin_toggles_witness :
    renderHint noOriginConfig missingOpponent Option.none Option.none = Option.none
    ∧ renderParticipantOrigin noOriginConfig missingOpponent Option.none
        = Option.none :=
  (C8_origin_toggles noOriginConfig missingOpponent Option.none Option.none).1 rfl

end BracketsViewer
